import Mathlib

/-!
Shallow embedding of the job/market generation and progression economy of the
Rail-Ops-USA repository (client pages `jobs.tsx`, `achievements.tsx`, the shop
page, and the shared schema module).  JavaScript numbers are modelled as exact
rationals; `Math.random()` draws and `crypto.randomUUID()` results are supplied
by an explicit oracle stream threaded through the generators.
-/

namespace RailOps

/-- Oracle for the sources of entropy used by the code: a stream of
`Math.random()` values (rationals, in reality in `[0,1)`) and a stream of
`crypto.randomUUID()` strings. -/
structure Rng where
  vals : List ℚ
  ids : List String
deriving DecidableEq

/-- The next `Math.random()` value (0 once the oracle is exhausted). -/
def Rng.val (r : Rng) : ℚ := r.vals.headD 0

/-- Consume one `Math.random()` draw. -/
def Rng.step (r : Rng) : Rng := { r with vals := r.vals.tail }

/-- The next `crypto.randomUUID()` string. -/
def Rng.uuid (r : Rng) : String := r.ids.headD ""

/-- Consume one uuid draw. -/
def Rng.ustep (r : Rng) : Rng := { r with ids := r.ids.tail }

/-- JS `Math.floor`, as `ℤ`. -/
def jsFloor (q : ℚ) : ℤ := Int.floor q

/-- JS `Math.floor` of a non-negative quantity, as `ℕ` (used where the code adds
the floor to a non-negative integer). -/
def jsFloorNat (q : ℚ) : ℕ := (Int.floor q).toNat

/-- Random element selection `arr[Math.floor(q * arr.length)]`; for
`q ∈ [0,1)` the index is always in range, out-of-range reads yield the
default. -/
def pick {α : Type} (q : ℚ) (l : List α) (d : α) : α :=
  l.getD (jsFloorNat (q * l.length)) d

-- ===========================================================================
-- XP & LEVEL SYSTEM (shared/schema.ts)
-- ===========================================================================

/-- The table `XP_PER_LEVEL` from the shared schema (levels 1-20). -/
def XP_PER_LEVEL : List ℚ :=
  [0, 200, 450, 750, 1100, 1500, 1950, 2450, 3000, 3600,
   4250, 5000, 5800, 6700, 7700, 8800, 10000, 11300, 12700, 14200]

/-- The descending search loop of `calculateLevel`: `levelSearch xp (i+1)`
corresponds to the loop iteration with index `i`; it returns `i + 1` on the
first table entry satisfying `xp >= XP_PER_LEVEL[i]` and `1` after the loop. -/
def levelSearch (xp : ℚ) : ℕ → ℕ
  | 0 => 1
  | n + 1 => if XP_PER_LEVEL.getD n 0 ≤ xp then n + 1 else levelSearch xp n

/-- Function `calculateLevel` from the shared schema. -/
def calculateLevel (xp : ℚ) : ℕ := levelSearch xp XP_PER_LEVEL.length

/-- Function `getXpForNextLevel` from the shared schema. -/
def getXpForNextLevel (currentLevel : ℕ) : ℚ :=
  if XP_PER_LEVEL.length ≤ currentLevel then
    XP_PER_LEVEL.getD (XP_PER_LEVEL.length - 1) 0
      + ((currentLevel - XP_PER_LEVEL.length + 1 : ℕ) : ℚ) * 2000
  else
    XP_PER_LEVEL.getD currentLevel 0

/-- Function `getUnlocksForLevel` from the shared schema. -/
def getUnlocksForLevel (level : ℕ) : List String :=
  (if level = 10 then ["Mainline Freight Jobs"] else [])
    ++ (if level = 50 then ["Special Freight Jobs"] else [])

-- ===========================================================================
-- DATA MODEL (shared/schema.ts)
-- ===========================================================================

/-- One manifest line of a job (`carManifestSchema`). -/
structure CarManifest where
  carType : String
  content : String
  count : ℕ
  weight : ℚ
deriving DecidableEq

/-- Job status (`jobSchema.status`). -/
inductive JobStatus where
  | available
  | in_progress
  | completed
deriving DecidableEq

/-- A freight job (`jobSchema`), with the fields the economy engine uses. -/
structure Job where
  id : String
  jobId : String
  tier : ℕ
  jobType : String
  origin : String
  destination : String
  distance : ℤ
  freightType : String
  demandLevel : String
  carCount : ℕ
  manifest : List CarManifest
  hpRequired : ℚ
  payout : ℤ
  timeMinutes : Option ℚ
  xpReward : ℤ
  status : JobStatus
  assignedLocos : Option (List String)
  startedAt : Option ℚ
  completesAt : Option ℚ
  generatedAt : ℚ
deriving DecidableEq

/-- A neutral job value used as list-lookup default. -/
def defaultJob : Job :=
  { id := "", jobId := "", tier := 0, jobType := "", origin := "",
    destination := "", distance := 0, freightType := "", demandLevel := "",
    carCount := 0, manifest := [], hpRequired := 0, payout := 0,
    timeMinutes := none, xpReward := 0, status := .available,
    assignedLocos := none, startedAt := none, completesAt := none,
    generatedAt := 0 }

/-- Locomotive status (`locomotiveSchema.status`). -/
inductive LocoStatus where
  | available
  | assigned
  | needs_repair
  | in_paint_shop
  | stored
deriving DecidableEq

/-- A locomotive (`locomotiveSchema`), restricted to the fields the job
economy touches. -/
structure Locomotive where
  id : String
  unitNumber : String
  model : String
  horsepower : ℚ
  status : LocoStatus
  assignedJobId : Option String
deriving DecidableEq

/-- Achievement rewards (`achievementSchema.rewards`). -/
structure Rewards where
  cash : ℚ
  points : ℚ
  xp : ℚ
deriving DecidableEq

/-- An achievement (`achievementSchema`). -/
structure Achievement where
  id : String
  targetValue : ℕ
  currentProgress : ℕ
  isCompleted : Bool
  completedAt : Option ℚ
  rewards : Rewards
deriving DecidableEq

/-- Player stats (`playerStatsSchema`). -/
structure PlayerStats where
  cash : ℚ
  xp : ℚ
  level : ℕ
  nextLocoId : ℕ
  points : ℚ
  totalJobsCompleted : ℕ
deriving DecidableEq

/-- One dealership stock line (`model → stock`); the purchase handler clamps
with `Math.max(0, …)`, so the count is modelled as `ℤ`. -/
structure StockItem where
  model : String
  stock : ℤ
deriving DecidableEq

/-- The player document: the slice of Firestore state the modelled handlers
read and write. -/
structure GameState where
  stats : PlayerStats
  locomotives : List Locomotive
  jobs : List Job
  achievements : List Achievement
  dealershipStock : List StockItem
deriving DecidableEq

-- ===========================================================================
-- MANIFEST GENERATION (jobs.tsx, generateManifest)
-- ===========================================================================

/-- The table `CAR_TYPES` from jobs.tsx: car type with its possible contents. -/
def CAR_TYPES : List (String × List String) :=
  [("Boxcar", ["General Freight", "Packaged Goods", "Appliances", "Paper Products"]),
   ("Covered Hopper", ["Grain", "Wheat", "Corn", "Soybeans", "Flour", "Cement"]),
   ("Open Hopper", ["Coal", "Aggregate", "Scrap Metal", "Sand"]),
   ("Tank Car", ["Crude Oil", "Chemicals", "Liquid Fertilizer", "Corn Syrup"]),
   ("Gondola", ["Steel Coils", "Steel Plates", "Scrap Metal", "Lumber"]),
   ("Flatcar", ["Steel Beams", "Construction Equipment", "Lumber", "Pipes"]),
   ("Intermodal", ["Containers (Mixed)", "Containers (Consumer Goods)", "Trailers"]),
   ("Autorack", ["New Automobiles", "New Trucks", "New SUVs"])]

/-- The task pool `YARD_SWITCHING_TASKS` from jobs.tsx. -/
def YARD_SWITCHING_TASKS : List String :=
  ["Assemble outbound manifest freight",
   "Break down incoming unit train",
   "Sort mixed freight by destination",
   "Spot cars at industrial sidings",
   "Build unit coal train",
   "Interchange with Class I railroad",
   "Organize intermodal terminal",
   "Service local industries"]

/-- The mixed-manifest loop of `generateManifest`: `fuel = numTypes - i` (so
the `i = numTypes - 1` last-iteration test is `fuel = 1`, and
`Math.ceil(remainingCars / (numTypes - i))` is `⌈remaining / fuel⌉`). -/
def mixedLoop (carTypes : List (String × List String)) :
    ℕ → ℕ → Rng → List CarManifest × Rng
  | 0, _, r => ([], r)
  | fuel + 1, remaining, r =>
    if remaining = 0 then ([], r)
    else
      let ct := pick r.val carTypes ("", [])
      let r1 := r.step
      let count := if fuel = 0 then remaining else (remaining + fuel) / (fuel + 1)
      let content := pick r1.val ct.2 ""
      let r2 := r1.step
      let weight : ℚ := 80 + r2.val * 40
      let r3 := r2.step
      let rest := mixedLoop carTypes fuel (remaining - count) r3
      ({ carType := ct.1, content := content, count := count, weight := weight } :: rest.1,
       rest.2)

/-- Function `generateManifest` from jobs.tsx. -/
def generateManifest (freightType : String) (totalCars : ℕ) (r : Rng) :
    List CarManifest × Rng :=
  if freightType = "Coal" then
    ([{ carType := "Open Hopper", content := "Coal", count := totalCars, weight := 110 }], r)
  else if freightType = "Intermodal" then
    let containers := totalCars * 7 / 10
    let trailers := totalCars - containers
    (({ carType := "Intermodal", content := "Containers (Mixed)",
        count := containers, weight := 75 } : CarManifest)
      :: (if 0 < trailers then
            [{ carType := "Intermodal", content := "Trailers",
               count := trailers, weight := 60 }]
          else []), r)
  else if freightType = "Grain" then
    (([{ carType := "Covered Hopper",
         content := pick r.val ["Corn", "Wheat", "Soybeans"] "",
         count := totalCars, weight := 100 }] : List CarManifest), r.step)
  else if freightType = "Chemicals" then
    ([{ carType := "Tank Car", content := "Hazardous Chemicals",
        count := totalCars, weight := 90 }], r)
  else if freightType = "Automotive" then
    ([{ carType := "Autorack", content := "New Automobiles",
        count := totalCars, weight := 70 }], r)
  else if freightType = "Steel" then
    ([{ carType := "Gondola", content := "Steel Coils",
        count := totalCars, weight := 120 }], r)
  else
    let carTypes := CAR_TYPES.filter fun c =>
      decide (¬ (c.1 = "Intermodal" ∨ c.1 = "Autorack"))
    let numTypes := min 3 (max 1 (totalCars / 3))
    mixedLoop carTypes numTypes totalCars r

/-- Total car count of a manifest. -/
def sumCounts (m : List CarManifest) : ℕ := (m.map (·.count)).sum

-- ===========================================================================
-- JOB GENERATION (jobs.tsx, generateJobs)
-- ===========================================================================

/-- The city pool of `generateJobs`. -/
def cities : List String :=
  ["Atlanta, GA", "Charlotte, NC", "Memphis, TN", "Nashville, TN",
   "Birmingham, AL", "Chattanooga, TN"]

/-- The local destination pool of `generateJobs`. -/
def localDestinations : List String :=
  ["Industrial Park", "East Yard", "West Terminal", "Port Facility",
   "North Industrial", "South Distribution Center", "Manufacturing District",
   "Intermodal Terminal", "Grain Elevator", "Steel Mill", "Chemical Plant",
   "Auto Assembly Plant"]

/-- The freight type names of `FREIGHT_TYPES` (shared schema). -/
def FREIGHT_TYPE_NAMES : List String :=
  ["Coal", "Intermodal", "Grain", "Chemicals", "Steel", "Lumber",
   "Automotive", "Mixed Manifest"]

/-- Zero padding, as in `String(n).padStart(w, "0")`. -/
def zeroPad (w : ℕ) (n : ℕ) : String :=
  let s := toString n
  String.mk (List.replicate (w - s.length) '0') ++ s

/-- One iteration of the tier-1 local-freight loop of `generateJobs`. -/
def genLocalFreightJob (playerCity : String) (i : ℕ) (now : ℚ) (r0 : Rng) :
    Job × Rng :=
  let destination := pick r0.val localDestinations ""
  let r1 := r0.step
  let distance : ℚ := 5 + r1.val * 11
  let r2 := r1.step
  let carCount : ℕ := 4 + jsFloorNat (r2.val * 8)
  let r3 := r2.step
  let mres := generateManifest "Mixed Manifest" carCount r3
  let r4 := mres.2
  let hpRequired : ℚ := (carCount : ℚ) * 150
  let timeMinutes : ℚ := 8 + r4.val * 7
  let r5 := r4.step
  let basePayout : ℚ := distance * (carCount : ℚ) * 25
  ({ id := r5.uuid, jobId := "LCL-" ++ zeroPad 3 (i + 1), tier := 1,
     jobType := "local_freight", origin := playerCity ++ " Yard",
     destination := playerCity ++ " " ++ destination,
     distance := jsFloor distance, freightType := "Mixed Manifest",
     demandLevel := "medium", carCount := carCount, manifest := mres.1,
     hpRequired := hpRequired, payout := jsFloor basePayout,
     timeMinutes := some ((jsFloor timeMinutes : ℤ) : ℚ),
     xpReward := jsFloor (distance * 5), status := .available,
     assignedLocos := none, startedAt := none, completesAt := none,
     generatedAt := now }, r5.ustep)

/-- One iteration of the tier-1 yard-switching loop of `generateJobs`. -/
def genYardSwitchingJob (playerCity : String) (i : ℕ) (now : ℚ) (r0 : Rng) :
    Job × Rng :=
  let task := pick r0.val YARD_SWITCHING_TASKS ""
  let r1 := r0.step
  let carCount : ℕ := 8 + jsFloorNat (r1.val * 12)
  let r2 := r1.step
  let mres := generateManifest "Mixed Manifest" carCount r2
  let r3 := mres.2
  let timeMinutes : ℚ := 6 + r3.val * 4
  let r4 := r3.step
  let basePayout : ℚ := (carCount : ℚ) * 220
  ({ id := r4.uuid, jobId := "YRD-" ++ zeroPad 3 (i + 1), tier := 1,
     jobType := "yard_switching", origin := playerCity ++ " Yard",
     destination := playerCity ++ " Yard", distance := 0,
     freightType := task, demandLevel := "medium", carCount := carCount,
     manifest := mres.1, hpRequired := 1500, payout := jsFloor basePayout,
     timeMinutes := some ((jsFloor timeMinutes : ℤ) : ℚ),
     xpReward := 30 + (carCount : ℤ) * 2, status := .available,
     assignedLocos := none, startedAt := none, completesAt := none,
     generatedAt := now }, r4.ustep)

/-- Total train weight of a manifest (`reduce((sum, item) => sum + item.weight * item.count, 0)`). -/
def manifestWeight (m : List CarManifest) : ℚ :=
  m.foldl (fun sum item => sum + item.weight * item.count) 0

/-- One iteration of the tier-2 mainline-freight loop of `generateJobs`. -/
def genMainlineJob (playerCity : String) (i : ℕ) (now : ℚ) (r0 : Rng) :
    Job × Rng :=
  let otherCities := cities.filter fun c => decide (¬ c = playerCity)
  let destination := pick r0.val otherCities ""
  let r1 := r0.step
  let freightType := pick r1.val FREIGHT_TYPE_NAMES ""
  let r2 := r1.step
  let distance : ℚ := 80 + r2.val * 120
  let r3 := r2.step
  let carCount : ℕ := 15 + jsFloorNat (r3.val * 136)
  let r4 := r3.step
  let mres := generateManifest freightType carCount r4
  let r5 := mres.2
  let hpRequired : ℚ := ((jsFloor (manifestWeight mres.1 * (3 / 2)) : ℤ) : ℚ)
  let timeMinutes : ℚ := 45 + r5.val * 45
  let r6 := r5.step
  let basePayout : ℚ := distance * (carCount : ℚ) * 30
  ({ id := r6.uuid, jobId := "MLF-" ++ zeroPad 3 (i + 1), tier := 2,
     jobType := "mainline_freight", origin := playerCity,
     destination := destination, distance := jsFloor distance,
     freightType := freightType, demandLevel := "medium",
     carCount := carCount, manifest := mres.1, hpRequired := hpRequired,
     payout := jsFloor basePayout,
     timeMinutes := some ((jsFloor timeMinutes : ℤ) : ℚ),
     xpReward := jsFloor (distance * 10), status := .available,
     assignedLocos := none, startedAt := none, completesAt := none,
     generatedAt := now }, r6.ustep)

/-- One iteration of the tier-3 special-freight loop of `generateJobs`. -/
def genSpecialJob (playerCity : String) (i : ℕ) (now : ℚ) (r0 : Rng) :
    Job × Rng :=
  let otherCities := cities.filter fun c => decide (¬ c = playerCity)
  let destination := pick r0.val otherCities ""
  let r1 := r0.step
  let freightType := pick r1.val ["Coal", "Intermodal", "Automotive"] ""
  let r2 := r1.step
  let distance : ℚ := 200 + r2.val * 300
  let r3 := r2.step
  let carCount : ℕ := 40 + jsFloorNat (r3.val * 80)
  let r4 := r3.step
  let mres := generateManifest freightType carCount r4
  let r5 := mres.2
  let hpRequired : ℚ := (carCount : ℚ) * 250
  let timeMinutes : ℚ := 120 + r5.val * 180
  let r6 := r5.step
  let basePayout : ℚ := distance * (carCount : ℚ) * 55
  ({ id := r6.uuid, jobId := "SPF-" ++ zeroPad 3 (i + 1), tier := 3,
     jobType := "special_freight", origin := playerCity,
     destination := destination, distance := jsFloor distance,
     freightType := freightType, demandLevel := "high",
     carCount := carCount, manifest := mres.1, hpRequired := hpRequired,
     payout := jsFloor basePayout,
     timeMinutes := some ((jsFloor timeMinutes : ℤ) : ℚ),
     xpReward := jsFloor (distance * 20), status := .available,
     assignedLocos := none, startedAt := none, completesAt := none,
     generatedAt := now }, r6.ustep)

/-- Run a `for (let i = …; i < …; i++)` job-building loop: `k` remaining
iterations starting at index `i`. -/
def genSeq (gen : ℕ → Rng → Job × Rng) : ℕ → ℕ → Rng → List Job × Rng
  | _, 0, r => ([], r)
  | i, k + 1, r =>
    let jr := gen i r
    let rest := genSeq gen (i + 1) k jr.2
    (jr.1 :: rest.1, rest.2)

/-- Function `generateJobs` from jobs.tsx: 4 local freight + 2 yard switching for
tier 1, 8 mainline jobs for tier 2, 3 special jobs for tier 3. -/
def generateJobs (tier : ℕ) (playerCity : String) (playerLevel : ℕ)
    (now : ℚ) (r : Rng) : List Job × Rng :=
  if tier = 1 then
    let lf := genSeq (fun i rr => genLocalFreightJob playerCity i now rr) 0 4 r
    let ys := genSeq (fun i rr => genYardSwitchingJob playerCity i now rr) 0 2 lf.2
    (lf.1 ++ ys.1, ys.2)
  else if tier = 2 then
    genSeq (fun i rr => genMainlineJob playerCity i now rr) 0 8 r
  else if tier = 3 then
    genSeq (fun i rr => genSpecialJob playerCity i now rr) 0 3 r
  else ([], r)

-- ===========================================================================
-- REFRESH SCHEDULER (jobs.tsx, checkAndRefreshJobs)
-- ===========================================================================

/-- The regeneration performed when a refresh fires (jobs.tsx lines 353-366):
keep the `in_progress` jobs, generate a fresh set for all three tiers, and
concatenate. -/
def refreshJobs (playerCity : String) (playerLevel : ℕ) (now : ℚ)
    (jobs : List Job) (r : Rng) : List Job :=
  let ongoingJobs := jobs.filter fun j => decide (j.status = JobStatus.in_progress)
  let t1 := generateJobs 1 playerCity playerLevel now r
  let t2 := generateJobs 2 playerCity playerLevel now t1.2
  let t3 := generateJobs 3 playerCity playerLevel now t2.2
  ongoingJobs ++ t1.1 ++ t2.1 ++ t3.1

/-- The `reduce` that finds the oldest currently-available job. -/
def oldestAvailableJob (jobs : List Job) : Option Job :=
  (jobs.filter fun j => decide (j.status = JobStatus.available)).foldl
    (fun oldest job =>
      match oldest with
      | none => some job
      | some o => if job.generatedAt < o.generatedAt then some job else some o)
    none

/-- Function `checkAndRefreshJobs` from jobs.tsx: refresh only at minute 0 or 30 of the
hour, when an available job exists and the oldest one is at least 29 minutes
old. -/
def checkAndRefreshJobs (minutes : ℕ) (now : ℚ) (playerCity : String)
    (playerLevel : ℕ) (jobs : List Job) (r : Rng) : List Job :=
  if ¬ minutes = 0 ∧ ¬ minutes = 30 then jobs
  else
    match oldestAvailableJob jobs with
    | none => jobs
    | some oldest =>
      if now - oldest.generatedAt < 29 * 60 * 1000 then jobs
      else refreshJobs playerCity playerLevel now jobs r

-- ===========================================================================
-- JOB LIFECYCLE (jobs.tsx, handleAssignJob / handleClaimJob)
-- ===========================================================================

/-- The tier requirement check of jobs.tsx (`tier === 2 ? 10 : tier === 3 ? 50 : 0`). -/
def tierRequirement (tier : ℕ) : ℕ :=
  if tier = 2 then 10 else if tier = 3 then 50 else 0

/-- The sum `totalSelectedHP` of the horsepower of the selected locomotives
(`loco?.horsepower || 0` for unknown ids). -/
def totalSelectedHP (locomotives : List Locomotive) (selected : List String) : ℚ :=
  selected.foldl
    (fun sum id =>
      sum + (((locomotives.find? fun l => decide (l.id = id)).map (·.horsepower)).getD 0))
    0

/-- Handler `handleAssignJob` from jobs.tsx, as a checked state transformer: the early
returns become validation errors (state unchanged), the Firestore update
becomes the new state. -/
def handleAssignJob (s : GameState) (selectedJob : Job)
    (selectedLocos : List String) (now : ℚ) : Except String GameState :=
  if selectedLocos = [] then .error "no locomotives selected"
  else if s.stats.level < tierRequirement selectedJob.tier then
    .error "Job Locked"
  else if totalSelectedHP s.locomotives selectedLocos < selectedJob.hpRequired then
    .error "Insufficient Horsepower"
  else
    let completionTime := now + (selectedJob.timeMinutes.getD 60) * 60 * 1000
    .ok { s with
      jobs := s.jobs.map fun j =>
        if j.id = selectedJob.id then
          { j with status := .in_progress, assignedLocos := some selectedLocos,
                   startedAt := some now, completesAt := some completionTime }
        else j,
      locomotives := s.locomotives.map fun l =>
        if selectedLocos.contains l.id then
          { l with status := .assigned, assignedJobId := some selectedJob.id }
        else l }

/-- Apply a checked handler result: a validation error leaves the document
untouched. -/
def applyResult (s : GameState) : Except String GameState → GameState
  | .ok s' => s'
  | .error _ => s

/-- The Firestore update of `handleClaimJob` (jobs.tsx lines 527-549): credit
payout and XP, recompute the level, drop the job, free its locomotives.  The
update never touches `stats.totalJobsCompleted`. -/
def jobClaimUpdate (s : GameState) (job : Job) : GameState :=
  let newCash := s.stats.cash + (job.payout : ℚ)
  let newXp := s.stats.xp + (job.xpReward : ℚ)
  let newLevel := calculateLevel newXp
  { s with
    jobs := s.jobs.filter fun j => decide (¬ j.id = job.id),
    locomotives := s.locomotives.map fun l =>
      if l.assignedJobId = some job.id then
        { l with assignedJobId := none, status := .available }
      else l,
    stats := { s.stats with cash := newCash, xp := newXp, level := newLevel } }

/-- Handler `handleClaimJob` from jobs.tsx: look the job up by id and bail out unless
it is `in_progress`; `none` models the silent early return (no write). -/
def handleClaimJob (s : GameState) (jobId : String) : Option GameState :=
  match s.jobs.find? fun j => decide (j.id = jobId) with
  | none => none
  | some job =>
    if job.status = JobStatus.in_progress then some (jobClaimUpdate s job)
    else none

/-- The quantity `timeRemaining` of the current-job card (jobs.tsx line 629):
`completesAt ? Math.max(0, completesAt - currentTime) : 0`. -/
def timeRemaining (now : ℚ) (job : Job) : ℚ :=
  match job.completesAt with
  | some c => max 0 (c - now)
  | none => 0

/-- The user-reachable claim operation: the current-job card is rendered only
for `in_progress` jobs and shows the claim button only once
`timeRemaining = 0` (jobs.tsx lines 575, 631, 698-707); the button invokes
`handleClaimJob`. -/
def claimJob (s : GameState) (now : ℚ) (jobId : String) : Option GameState :=
  match s.jobs.find? fun j => decide (j.id = jobId) with
  | none => none
  | some job =>
    if job.status = JobStatus.in_progress ∧ timeRemaining now job = 0 then
      handleClaimJob s jobId
    else none

-- ===========================================================================
-- ACHIEVEMENT CLAIM (achievements.tsx)
-- ===========================================================================

/-- The transaction body of `handleClaimReward` (achievements.tsx lines
49-67): mark the achievement completed and credit the three rewards. -/
def achievementClaimUpdate (s : GameState) (a : Achievement) (now : ℚ) :
    GameState :=
  { s with
    achievements := s.achievements.map fun x =>
      if x.id = a.id then { x with isCompleted := true, completedAt := some now }
      else x,
    stats := { s.stats with
      points := s.stats.points + a.rewards.points,
      cash := s.stats.cash + a.rewards.cash,
      xp := s.stats.xp + a.rewards.xp } }

/-- Handler `handleClaimReward` from achievements.tsx: the guard returns silently when
the achievement is already completed, otherwise the transaction commits. -/
def handleClaimReward (s : GameState) (a : Achievement) (now : ℚ) :
    Option GameState :=
  if a.isCompleted then none else some (achievementClaimUpdate s a now)

/-- The user-reachable achievement claim: the claim button is rendered only
when `currentProgress >= targetValue` and the achievement is unclaimed
(achievements.tsx lines 91-93, 160-169); it invokes `handleClaimReward`. -/
def claimAchievement (s : GameState) (aId : String) (now : ℚ) :
    Option GameState :=
  match s.achievements.find? fun a => decide (a.id = aId) with
  | none => none
  | some a =>
    if a.targetValue ≤ a.currentProgress ∧ a.isCompleted = false then
      handleClaimReward s a now
    else none

-- ===========================================================================
-- DEALERSHIP PURCHASE (shop page, handlePurchase)
-- ===========================================================================

/-- A catalog entry (`LOCOMOTIVE_CATALOG`), restricted to the fields the
purchase handler uses. -/
structure CatalogItem where
  model : String
  manufacturer : String
  horsepower : ℚ
  purchaseCost : ℚ
deriving DecidableEq

/-- Lookup `getStock` from the shop page. -/
def getStock (dealershipStock : List StockItem) (model : String) : ℤ :=
  match dealershipStock.find? fun s => decide (s.model = model) with
  | some stockItem => stockItem.stock
  | none => 0

/-- The new-locomotive construction loop of `handlePurchase`: `quantity`
records with sequential unit numbers starting at `nextLocoId`. -/
def mkNewLocos (item : CatalogItem) : ℕ → ℕ → Rng → List Locomotive × Rng
  | _, 0, r => ([], r)
  | nextId, k + 1, r =>
    let loco : Locomotive :=
      { id := r.uuid, unitNumber := "#" ++ zeroPad 4 nextId,
        model := item.model, horsepower := item.horsepower,
        status := .available, assignedJobId := none }
    let rest := mkNewLocos item (nextId + 1) k r.ustep
    (loco :: rest.1, rest.2)

/-- Handler `handlePurchase` from the shop page: reject on insufficient stock, then on
insufficient funds; otherwise append the new locomotives, debit cash, advance
`nextLocoId`, and decrement the model's stock clamped at zero. -/
def handlePurchase (s : GameState) (catalogItem : CatalogItem) (quantity : ℕ)
    (r : Rng) : Except String GameState :=
  let totalCost := catalogItem.purchaseCost * quantity
  let currentStock := getStock s.dealershipStock catalogItem.model
  if currentStock < quantity then .error "Insufficient Stock"
  else if s.stats.cash < totalCost then .error "Insufficient Funds"
  else
    let newLocos := (mkNewLocos catalogItem s.stats.nextLocoId quantity r).1
    let updatedStock := s.dealershipStock.map fun it =>
      if it.model = catalogItem.model then
        { it with stock := max 0 (it.stock - quantity) }
      else it
    .ok { s with
      locomotives := s.locomotives ++ newLocos,
      stats := { s.stats with
        cash := s.stats.cash - totalCost,
        nextLocoId := s.stats.nextLocoId + quantity },
      dealershipStock := updatedStock }

-- ===========================================================================
-- LEMMAS: manifest conservation and generator invariants
-- ===========================================================================

lemma sumCounts_nil : sumCounts [] = 0 := rfl

lemma sumCounts_cons (e : CarManifest) (l : List CarManifest) :
    sumCounts (e :: l) = e.count + sumCounts l := by
  simp [sumCounts]

lemma ceil_share_le (rem f : ℕ) (h : 1 ≤ rem) : (rem + f) / (f + 1) ≤ rem := by
  rw [Nat.div_le_iff_le_mul_add_pred (by omega : 0 < f + 1)]
  nlinarith

lemma mixedLoop_sumCounts (ct : List (String × List String)) :
    ∀ (fuel rem : ℕ) (r : Rng),
      sumCounts (mixedLoop ct fuel rem r).1 = if fuel = 0 then 0 else rem := by
  intro fuel
  induction fuel with
  | zero => intro rem r; simp [mixedLoop, sumCounts_nil]
  | succ f ih =>
    intro rem r
    by_cases h : rem = 0
    · simp [mixedLoop, h, sumCounts_nil]
    · simp only [mixedLoop, h, if_false, sumCounts_cons, Nat.succ_ne_zero]
      rw [ih]
      by_cases hf : f = 0
      · simp [hf]
      · have hle : (rem + f) / (f + 1) ≤ rem := ceil_share_le rem f (by omega)
        simp only [hf, if_false]
        omega

lemma generateManifest_sumCounts (ft : String) (n : ℕ) (r : Rng) :
    sumCounts (generateManifest ft n r).1 = n := by
  unfold generateManifest
  split_ifs with h1 h2 h3 h4 h5 h6
  · simp [sumCounts_cons, sumCounts_nil]
  · have hc : n * 7 / 10 ≤ n := by
      rw [Nat.div_le_iff_le_mul_add_pred (by omega : 0 < 10)]
      omega
    by_cases ht : 0 < n - n * 7 / 10 <;>
      simp [ht, sumCounts_cons, sumCounts_nil] <;> omega
  · simp [sumCounts_cons, sumCounts_nil]
  · simp [sumCounts_cons, sumCounts_nil]
  · simp [sumCounts_cons, sumCounts_nil]
  · simp [sumCounts_cons, sumCounts_nil]
  · rw [mixedLoop_sumCounts]
    have h1 : 1 ≤ min 3 (max 1 (n / 3)) := by omega
    simp [Nat.pos_iff_ne_zero.mp h1]

lemma genLocalFreightJob_conserves (c : String) (i : ℕ) (now : ℚ) (r : Rng) :
    sumCounts (genLocalFreightJob c i now r).1.manifest
      = (genLocalFreightJob c i now r).1.carCount :=
  generateManifest_sumCounts _ _ _

lemma genYardSwitchingJob_conserves (c : String) (i : ℕ) (now : ℚ) (r : Rng) :
    sumCounts (genYardSwitchingJob c i now r).1.manifest
      = (genYardSwitchingJob c i now r).1.carCount :=
  generateManifest_sumCounts _ _ _

lemma genMainlineJob_conserves (c : String) (i : ℕ) (now : ℚ) (r : Rng) :
    sumCounts (genMainlineJob c i now r).1.manifest
      = (genMainlineJob c i now r).1.carCount :=
  generateManifest_sumCounts _ _ _

lemma genSpecialJob_conserves (c : String) (i : ℕ) (now : ℚ) (r : Rng) :
    sumCounts (genSpecialJob c i now r).1.manifest
      = (genSpecialJob c i now r).1.carCount :=
  generateManifest_sumCounts _ _ _

lemma genSeq_forall {gen : ℕ → Rng → Job × Rng} {P : Job → Prop}
    (hg : ∀ i r, P (gen i r).1) :
    ∀ (k i : ℕ) (r : Rng) (j : Job), j ∈ (genSeq gen i k r).1 → P j := by
  intro k
  induction k with
  | zero => intro i r j hj; simp [genSeq] at hj
  | succ k ih =>
    intro i r j hj
    simp only [genSeq, List.mem_cons] at hj
    rcases hj with hj | hj
    · exact hj ▸ hg i r
    · exact ih (i + 1) (gen i r).2 j hj

lemma generateJobs_forall {P : Job → Prop}
    (hlf : ∀ c i now r, P (genLocalFreightJob c i now r).1)
    (hys : ∀ c i now r, P (genYardSwitchingJob c i now r).1)
    (hml : ∀ c i now r, P (genMainlineJob c i now r).1)
    (hsp : ∀ c i now r, P (genSpecialJob c i now r).1) :
    ∀ (tier : ℕ) (city : String) (lvl : ℕ) (now : ℚ) (r : Rng) (j : Job),
      j ∈ (generateJobs tier city lvl now r).1 → P j := by
  intro tier city lvl now r j hj
  unfold generateJobs at hj
  split_ifs at hj
  · rcases List.mem_append.mp hj with hj | hj
    · exact genSeq_forall (fun i rr => hlf city i now rr) _ _ _ _ hj
    · exact genSeq_forall (fun i rr => hys city i now rr) _ _ _ _ hj
  · exact genSeq_forall (fun i rr => hml city i now rr) _ _ _ _ hj
  · exact genSeq_forall (fun i rr => hsp city i now rr) _ _ _ _ hj
  · simp at hj

lemma generateJobs_conserves :
    ∀ (tier : ℕ) (city : String) (lvl : ℕ) (now : ℚ) (r : Rng) (j : Job),
      j ∈ (generateJobs tier city lvl now r).1 → sumCounts j.manifest = j.carCount :=
  generateJobs_forall genLocalFreightJob_conserves genYardSwitchingJob_conserves
    genMainlineJob_conserves genSpecialJob_conserves

lemma generateJobs_status_available :
    ∀ (tier : ℕ) (city : String) (lvl : ℕ) (now : ℚ) (r : Rng) (j : Job),
      j ∈ (generateJobs tier city lvl now r).1 → j.status = JobStatus.available :=
  generateJobs_forall (fun _ _ _ _ => rfl) (fun _ _ _ _ => rfl)
    (fun _ _ _ _ => rfl) (fun _ _ _ _ => rfl)

/-- CLAIM C4: for every tier, home city, player level, and random source, every
job produced by the job generator has a manifest whose counts sum to its
`carCount` (stated over the k-th generated job for every index `k`; the lookup
default trivially satisfies the property). -/
theorem claim_C4_manifest_conservation :
    ∀ (tier : ℕ) (city : String) (lvl : ℕ) (now : ℚ) (r : Rng) (k : ℕ),
      sumCounts (((generateJobs tier city lvl now r).1.getD k defaultJob).manifest)
        = ((generateJobs tier city lvl now r).1.getD k defaultJob).carCount := by
  intro tier city lvl now r k
  rcases h : (generateJobs tier city lvl now r).1[k]? with _ | j
  · rw [List.getD_eq_getElem?_getD, h]; rfl
  · rw [List.getD_eq_getElem?_getD, h]
    exact generateJobs_conserves tier city lvl now r j (List.getElem?_mem h)

/-- CLAIM C2: a market refresh preserves every `in_progress` job verbatim (the
`in_progress` sublist of the result is exactly that of the input, same records
in the same order), and every job of the result is either one of those
preserved `in_progress` jobs or a freshly generated `available` job. -/
theorem claim_C2_refresh_preserves_in_flight :
    ∀ (city : String) (lvl : ℕ) (now : ℚ) (jobs : List Job) (r : Rng),
      (refreshJobs city lvl now jobs r).filter
          (fun j => decide (j.status = JobStatus.in_progress))
        = jobs.filter (fun j => decide (j.status = JobStatus.in_progress))
      ∧ ∀ k : ℕ,
          ((refreshJobs city lvl now jobs r).getD k defaultJob).status
              = JobStatus.available
          ∨ ((refreshJobs city lvl now jobs r).getD k defaultJob)
              ∈ jobs.filter (fun j => decide (j.status = JobStatus.in_progress)) := by
  intro city lvl now jobs r
  have hfresh : ∀ (tier : ℕ) (rr : Rng),
      ∀ j ∈ (generateJobs tier city lvl now rr).1,
        ¬ decide (j.status = JobStatus.in_progress) = true := by
    intro tier rr j hj
    simp [generateJobs_status_available tier city lvl now rr j hj]
  constructor
  · unfold refreshJobs
    rw [List.filter_append, List.filter_append, List.filter_append]
    rw [List.filter_eq_nil_iff.mpr (hfresh 1 _), List.filter_eq_nil_iff.mpr (hfresh 2 _),
      List.filter_eq_nil_iff.mpr (hfresh 3 _)]
    simp [List.filter_filter]
  · intro k
    rcases h : (refreshJobs city lvl now jobs r)[k]? with _ | j
    · rw [List.getD_eq_getElem?_getD, h]
      left; rfl
    · rw [List.getD_eq_getElem?_getD, h]
      have hj : j ∈ refreshJobs city lvl now jobs r := List.getElem?_mem h
      unfold refreshJobs at hj
      simp only [List.append_assoc, List.mem_append] at hj
      rcases hj with hj | hj | hj | hj
      · right; exact hj
      · left; exact generateJobs_status_available 1 city lvl now _ j hj
      · left; exact generateJobs_status_available 2 city lvl now _ j hj
      · left; exact generateJobs_status_available 3 city lvl now _ j hj

-- ===========================================================================
-- LEMMAS: leveling curve
-- ===========================================================================

lemma levelSearch_le (xp : ℚ) : ∀ n, levelSearch xp n ≤ n + 1 := by
  intro n
  induction n with
  | zero => simp [levelSearch]
  | succ n ih =>
    rw [levelSearch]
    split_ifs
    · omega
    · omega

lemma levelSearch_mono {x1 x2 : ℚ} (h : x1 ≤ x2) :
    ∀ n, levelSearch x1 n ≤ levelSearch x2 n := by
  intro n
  induction n with
  | zero => simp [levelSearch]
  | succ n ih =>
    rw [levelSearch, levelSearch]
    split_ifs with h1 h2 h2
    · omega
    · exact absurd (h1.trans h) h2
    · exact (levelSearch_le x1 n).trans (by omega)
    · exact ih

lemma levelSearch_ge {xp : ℚ} :
    ∀ n i, i < n → XP_PER_LEVEL.getD i 0 ≤ xp → i + 1 ≤ levelSearch xp n := by
  intro n
  induction n with
  | zero => omega
  | succ m ih =>
    intro i hi hle
    rw [levelSearch]
    split_ifs with h
    · omega
    · have him : ¬ i = m := fun he => h (he ▸ hle)
      exact ih i (by omega) hle

/-- CLAIM C8: the leveling curve is monotone in XP, and for every level `L`
within the `XP_PER_LEVEL` table, applying `calculateLevel` to the threshold
returned by `getXpForNextLevel L` yields a level at least `L`. -/
theorem claim_C8_leveling_monotone :
    (∀ x1 x2 : ℚ, x1 ≤ x2 → calculateLevel x1 ≤ calculateLevel x2)
    ∧ ∀ L : ℕ, L ≤ XP_PER_LEVEL.length → L ≤ calculateLevel (getXpForNextLevel L) := by
  constructor
  · intro x1 x2 h
    exact levelSearch_mono h XP_PER_LEVEL.length
  · intro L hL
    have hlen : XP_PER_LEVEL.length = 20 := by norm_num [XP_PER_LEVEL]
    rcases Nat.lt_or_ge L XP_PER_LEVEL.length with h | h
    · have hx : XP_PER_LEVEL.getD L 0 ≤ getXpForNextLevel L := by
        unfold getXpForNextLevel
        rw [if_neg (by omega)]
      have := levelSearch_ge XP_PER_LEVEL.length L h hx
      unfold calculateLevel
      omega
    · have hL20 : L = 20 := by omega
      subst hL20
      have hx : XP_PER_LEVEL.getD 19 0 ≤ getXpForNextLevel 20 := by
        norm_num [XP_PER_LEVEL, getXpForNextLevel]
      have := levelSearch_ge XP_PER_LEVEL.length 19 (by omega) hx
      unfold calculateLevel
      omega

/-- Witness for C8 at concrete inputs. -/
theorem claim_C8_witness :
    calculateLevel 3 ≤ calculateLevel 7
    ∧ 9 ≤ calculateLevel (getXpForNextLevel 9) :=
  ⟨claim_C8_leveling_monotone.1 3 7 (by norm_num),
   claim_C8_leveling_monotone.2 9 (by norm_num [XP_PER_LEVEL])⟩

/-- CLAIM C9, counterexample: with the shared schema's `XP_PER_LEVEL` table,
a player with `xp = 26999` is at level 20, not 9, and `xp = 27000` also gives
level 20, not 10 — levels 10..20 are all reached well below 27000. -/
theorem claim_C9_counterexample :
    calculateLevel 26999 = 20 ∧ ¬ calculateLevel 26999 = 9
    ∧ calculateLevel 27000 = 20 ∧ ¬ calculateLevel 27000 = 10 := by
  refine ⟨?_, ?_, ?_, ?_⟩ <;> norm_num [calculateLevel, XP_PER_LEVEL, levelSearch]

/-- CLAIM C9, amended: the level-10 threshold of the schema's table is 3600,
so a player at `xp = 3599` is at level 9 and earning 1 XP (to 3600) moves
them to level 10, whose unlock list includes "Mainline Freight Jobs". -/
theorem claim_C9_amended :
    calculateLevel 3599 = 9 ∧ calculateLevel 3600 = 10
    ∧ getXpForNextLevel 9 = 3600
    ∧ "Mainline Freight Jobs" ∈ getUnlocksForLevel 10 := by
  refine ⟨?_, ?_, ?_, ?_⟩ <;>
    norm_num [calculateLevel, XP_PER_LEVEL, levelSearch, getXpForNextLevel,
      getUnlocksForLevel]

-- ===========================================================================
-- THEOREMS: assignment and claim lifecycle
-- ===========================================================================

/-- CLAIM C5: assigning a selection of locomotives whose summed horsepower is
below the job's requirement fails with a validation error and leaves the
document — hence every job and locomotive status — unchanged. -/
theorem claim_C5_assign_rejects_underpowered :
    ∀ (s : GameState) (job : Job) (sel : List String) (now : ℚ),
      job.status = JobStatus.available →
      totalSelectedHP s.locomotives sel < job.hpRequired →
      (∃ msg, handleAssignJob s job sel now = Except.error msg)
      ∧ applyResult s (handleAssignJob s job sel now) = s := by
  intro s job sel now _ hhp
  have herr : ∃ msg, handleAssignJob s job sel now = Except.error msg := by
    unfold handleAssignJob
    split_ifs with h0 h1
    · exact ⟨_, rfl⟩
    · exact ⟨_, rfl⟩
    · exact ⟨_, rfl⟩
  obtain ⟨msg, hmsg⟩ := herr
  exact ⟨⟨msg, hmsg⟩, by rw [hmsg]; rfl⟩

/-- An available job requiring 2000 HP. -/
def jobW : Job :=
  { defaultJob with id := "J1", hpRequired := 2000 }

/-- A single available 1000 HP locomotive. -/
def locoW : Locomotive :=
  { id := "L1", unitNumber := "#0001", model := "GP38-2", horsepower := 1000,
    status := .available, assignedJobId := none }

/-- A small player document for exercising the handlers. -/
def stateW : GameState :=
  { stats := { cash := 100, xp := 50, level := 1, nextLocoId := 2, points := 10,
               totalJobsCompleted := 0 },
    locomotives := [locoW], jobs := [jobW], achievements := [],
    dealershipStock := [] }

/-- Witness for C5: a 1000 HP selection against a 2000 HP job is rejected. -/
theorem claim_C5_witness :
    (∃ msg, handleAssignJob stateW jobW ["L1"] 0 = Except.error msg)
    ∧ applyResult stateW (handleAssignJob stateW jobW ["L1"] 0) = stateW :=
  claim_C5_assign_rejects_underpowered stateW jobW ["L1"] 0 rfl
    (by norm_num [totalSelectedHP, stateW, locoW, jobW, defaultJob, List.find?])

/-- CLAIM C6: the claim operation (claim button plus `handleClaimJob`) can
succeed only on an `in_progress` job whose `completesAt` has elapsed, and on
an `in_progress` job whose `completesAt` lies in the future it does nothing
(no state is written). -/
theorem claim_C6_claim_requires_completion :
    ∀ (s : GameState) (now : ℚ) (jid : String) (job : Job),
      s.jobs.find? (fun j => decide (j.id = jid)) = some job →
      ((claimJob s now jid).isSome →
          job.status = JobStatus.in_progress
          ∧ ∀ c, job.completesAt = some c → c ≤ now)
      ∧ (∀ c, job.status = JobStatus.in_progress → job.completesAt = some c →
          now < c → claimJob s now jid = none) := by
  intro s now jid job hfind
  have hcj : claimJob s now jid
      = if job.status = JobStatus.in_progress ∧ timeRemaining now job = 0
        then handleClaimJob s jid else none := by
    unfold claimJob
    rw [hfind]
  constructor
  · intro hsome
    rw [hcj] at hsome
    split_ifs at hsome with hg
    · refine ⟨hg.1, fun c hc => ?_⟩
      have ht : timeRemaining now job = max 0 (c - now) := by
        unfold timeRemaining
        rw [hc]
      have htr := hg.2
      rw [ht] at htr
      have hle : c - now ≤ max 0 (c - now) := le_max_right _ _
      rw [htr] at hle
      linarith
    · simp at hsome
  · intro c _ hc hlt
    rw [hcj, if_neg]
    rintro ⟨_, htr⟩
    have ht : timeRemaining now job = max 0 (c - now) := by
      unfold timeRemaining
      rw [hc]
    rw [ht, max_eq_right (by linarith : (0 : ℚ) ≤ c - now)] at htr
    linarith

/-- An `in_progress` job completing at time 100. -/
def jobC6 : Job :=
  { defaultJob with
    id := "J1", status := .in_progress, payout := 500, xpReward := 60,
    completesAt := some 100, assignedLocos := some ["L1"] }

/-- A document holding only `jobC6`. -/
def stateC6 : GameState :=
  { stateW with jobs := [jobC6] }

/-- Witness for C6: claiming at time 50, before `completesAt = 100`, does
nothing. -/
theorem claim_C6_witness : claimJob stateC6 50 "J1" = none :=
  (claim_C6_claim_requires_completion stateC6 50 "J1" jobC6
      (by norm_num [stateC6, stateW, jobC6, defaultJob, List.find?])).2
    100 rfl rfl (by norm_num)

/-- The locomotive of `stateC1`, assigned to job `J1`. -/
def locoC1 : Locomotive :=
  { locoW with status := .assigned, assignedJobId := some "J1" }

/-- An elapsed `in_progress` job worth 500 cash and 60 XP. -/
def jobC1 : Job :=
  { defaultJob with
    id := "J1", status := .in_progress, payout := 500, xpReward := 60,
    completesAt := some 10, assignedLocos := some ["L1"] }

/-- A document about to claim `jobC1`: cash 100, xp 50, no jobs completed. -/
def stateC1 : GameState :=
  { stats := { cash := 100, xp := 50, level := 1, nextLocoId := 2, points := 10,
               totalJobsCompleted := 0 },
    locomotives := [locoC1], jobs := [jobC1], achievements := [],
    dealershipStock := [] }

/-- CLAIM C1, evaluated at a concrete claim: the settlement credits the payout
(100 + 500 = 600) and the XP (50 + 60 = 110), recomputes the level via the
leveling curve, removes the job, and returns the assigned locomotive to
`available` with its `assignedJobId` cleared — but `totalJobsCompleted` is
left at its old value instead of being incremented: the Firestore update of
`handleClaimJob` never writes `stats.totalJobsCompleted`. -/
theorem claim_C1_claim_settlement_eval :
    (claimJob stateC1 20 "J1").map
        (fun s => (s.stats.cash, s.stats.xp, s.stats.level,
                   s.stats.totalJobsCompleted, s.jobs, s.locomotives))
      = some (600, 110, calculateLevel 110, stateC1.stats.totalJobsCompleted,
          [], [{ locoC1 with status := .available, assignedJobId := none }])
    ∧ ¬ (claimJob stateC1 20 "J1").map (fun s => s.stats.totalJobsCompleted)
        = some (stateC1.stats.totalJobsCompleted + 1) := by
  constructor <;>
    norm_num [claimJob, handleClaimJob, jobClaimUpdate, timeRemaining, stateC1,
      jobC1, locoC1, locoW, defaultJob, calculateLevel, XP_PER_LEVEL,
      levelSearch, List.find?]

-- ===========================================================================
-- THEOREMS: achievement claim
-- ===========================================================================

lemma find?_map_of_pred_preserved {α : Type} (p : α → Bool) (f : α → α)
    (hf : ∀ x, p (f x) = p x) :
    ∀ (l : List α) (a : α), l.find? p = some a → (l.map f).find? p = some (f a) := by
  intro l
  induction l with
  | nil => intro a h; simp at h
  | cons x xs ih =>
    intro a h
    by_cases hx : p x = true
    · rw [List.find?_cons_of_pos _ hx] at h
      rw [List.map_cons, List.find?_cons_of_pos _ ((hf x).trans hx)]
      cases h
      rfl
    · rw [List.find?_cons_of_neg _ hx] at h
      rw [List.map_cons, List.find?_cons_of_neg _ (by rw [hf x]; exact hx)]
      exact ih a h

/-- CLAIM C3: the achievement claim (claim button plus `handleClaimReward`)
succeeds exactly when `currentProgress ≥ targetValue` and the achievement is
not yet completed; on success it marks the achievement completed, records
`completedAt`, and credits the cash/points/XP rewards exactly once — a second
claim of the same achievement then fails (returns no state) and so cannot
re-credit. -/
theorem claim_C3_achievement_single_fire :
    ∀ (s : GameState) (aId : String) (now : ℚ) (a : Achievement),
      s.achievements.find? (fun x => decide (x.id = aId)) = some a →
      ((claimAchievement s aId now).isSome
          ↔ a.targetValue ≤ a.currentProgress ∧ a.isCompleted = false)
      ∧ ∀ s', claimAchievement s aId now = some s' →
          s'.stats.cash = s.stats.cash + a.rewards.cash
          ∧ s'.stats.points = s.stats.points + a.rewards.points
          ∧ s'.stats.xp = s.stats.xp + a.rewards.xp
          ∧ s'.achievements.find? (fun x => decide (x.id = aId))
              = some { a with isCompleted := true, completedAt := some now }
          ∧ ∀ now2, claimAchievement s' aId now2 = none := by
  intro s aId now a hfind
  have haid : a.id = aId := by simpa using List.find?_some hfind
  have hca : claimAchievement s aId now
      = if a.targetValue ≤ a.currentProgress ∧ a.isCompleted = false
        then handleClaimReward s a now else none := by
    unfold claimAchievement
    rw [hfind]
  by_cases hg : a.targetValue ≤ a.currentProgress ∧ a.isCompleted = false
  · have hsome : claimAchievement s aId now
        = some (achievementClaimUpdate s a now) := by
      rw [hca, if_pos hg]
      simp [handleClaimReward, hg.2]
    refine ⟨by rw [hsome]; simpa using hg, ?_⟩
    intro s' hs'
    rw [hsome] at hs'
    cases hs'
    have hfind' : (achievementClaimUpdate s a now).achievements.find?
        (fun x => decide (x.id = aId))
        = some { a with isCompleted := true, completedAt := some now } := by
      have hmap := find?_map_of_pred_preserved (fun x => decide (x.id = aId))
        (fun x => if x.id = a.id
                  then { x with isCompleted := true, completedAt := some now }
                  else x)
        (by intro x; by_cases hx : x.id = a.id <;> simp [hx])
        s.achievements a hfind
      simp only [achievementClaimUpdate]
      rw [hmap]
      simp
    refine ⟨by simp [achievementClaimUpdate], by simp [achievementClaimUpdate],
      by simp [achievementClaimUpdate], hfind', ?_⟩
    intro now2
    unfold claimAchievement
    rw [hfind']
    simp
  · have hnone : claimAchievement s aId now = none := by rw [hca, if_neg hg]
    refine ⟨by rw [hnone]; simpa using hg, ?_⟩
    intro s' hs'
    rw [hnone] at hs'
    cases hs'

/-- A completable, unclaimed achievement worth 1000 cash, 5 points, 20 XP. -/
def achW : Achievement :=
  { id := "A1", targetValue := 5, currentProgress := 7, isCompleted := false,
    completedAt := none,
    rewards := { cash := 1000, points := 5, xp := 20 } }

/-- A document holding only `achW`. -/
def stateA : GameState :=
  { stateW with achievements := [achW] }

/-- Witness for C3: claiming `achW` (progress 7 of 5) succeeds, and its
success condition holds. -/
theorem claim_C3_witness :
    (claimAchievement stateA "A1" 3).isSome
      ↔ achW.targetValue ≤ achW.currentProgress ∧ achW.isCompleted = false :=
  (claim_C3_achievement_single_fire stateA "A1" 3 achW
      (by norm_num [stateA, stateW, achW, List.find?])).1

-- ===========================================================================
-- THEOREMS: dealership purchase
-- ===========================================================================

/-- CLAIM C7: under the stock invariant (all counts non-negative), a purchase
exceeding the model's available stock is rejected with a validation error and
mutates nothing, and any completed purchase leaves every model's stock count
non-negative. -/
theorem claim_C7_purchase_stock_nonneg :
    ∀ (s : GameState) (item : CatalogItem) (q : ℕ) (r : Rng),
      (∀ it ∈ s.dealershipStock, 0 ≤ it.stock) →
      (getStock s.dealershipStock item.model < q →
          (∃ msg, handlePurchase s item q r = Except.error msg)
          ∧ applyResult s (handlePurchase s item q r) = s)
      ∧ ∀ s', handlePurchase s item q r = Except.ok s' →
          ∀ it ∈ s'.dealershipStock, 0 ≤ it.stock := by
  intro s item q r hinv
  constructor
  · intro hlow
    have herr : handlePurchase s item q r = Except.error "Insufficient Stock" := by
      unfold handlePurchase
      rw [if_pos hlow]
    exact ⟨⟨_, herr⟩, by rw [herr]; rfl⟩
  · intro s' hok it hit
    simp only [handlePurchase] at hok
    split_ifs at hok with h1 h2
    cases hok
    rcases List.mem_map.mp hit with ⟨it0, hit0, rfl⟩
    split_ifs
    · exact le_max_left 0 _
    · exact hinv it0 hit0

/-- A catalog entry used for the purchase witness. -/
def itemP : CatalogItem :=
  { model := "GP38-2", manufacturer := "EMD", horsepower := 2000,
    purchaseCost := 800000 }

/-- A document whose dealership has zero stock of `itemP`. -/
def stateP : GameState :=
  { stateW with dealershipStock := [{ model := "GP38-2", stock := 0 }] }

/-- Witness for C7: buying one unit against zero stock is rejected without
mutation. -/
theorem claim_C7_witness :
    (∃ msg, handlePurchase stateP itemP 1 ⟨[], []⟩ = Except.error msg)
    ∧ applyResult stateP (handlePurchase stateP itemP 1 ⟨[], []⟩) = stateP :=
  (claim_C7_purchase_stock_nonneg stateP itemP 1 ⟨[], []⟩
      (by intro it hit; simp [stateP, stateW] at hit; simp [hit])).1
    (by norm_num [getStock, stateP, stateW, itemP, List.find?])

-- ===========================================================================
-- THEOREMS: tier-1 local freight economics
-- ===========================================================================

/-- A random source whose draws give the first local freight job a raw
distance of 10.5 miles (floored to a distance field of 10) and a car count
of 8. -/
def rngC10 : Rng :=
  ⟨[0, 1 / 2, 1 / 2, 0, 0, 0, 0, 0, 0, 0], ["u1"]⟩

/-- CLAIM C10, counterexample: the first generated tier-1 local freight job
under `rngC10` has `distance = 10` and `carCount = 8`, but its payout is
`floor(10.5 × 8 × 25) = 2100`, not 2000, and its XP reward is
`floor(10.5 × 5) = 52`, not 50: the generator computes both from the raw
(un-floored) distance, while the `distance` field stores the floor. -/
theorem claim_C10_counterexample :
    (generateJobs 1 "Atlanta, GA" 1 0 rngC10).1.head?
        = some (genLocalFreightJob "Atlanta, GA" 0 0 rngC10).1
    ∧ (genLocalFreightJob "Atlanta, GA" 0 0 rngC10).1.jobType = "local_freight"
    ∧ (genLocalFreightJob "Atlanta, GA" 0 0 rngC10).1.tier = 1
    ∧ (genLocalFreightJob "Atlanta, GA" 0 0 rngC10).1.distance = 10
    ∧ (genLocalFreightJob "Atlanta, GA" 0 0 rngC10).1.carCount = 8
    ∧ (genLocalFreightJob "Atlanta, GA" 0 0 rngC10).1.payout = 2100
    ∧ ¬ (genLocalFreightJob "Atlanta, GA" 0 0 rngC10).1.payout = 2000
    ∧ (genLocalFreightJob "Atlanta, GA" 0 0 rngC10).1.xpReward = 52
    ∧ ¬ (genLocalFreightJob "Atlanta, GA" 0 0 rngC10).1.xpReward = 50 := by
  refine ⟨rfl, rfl, rfl, ?_, ?_, ?_, ?_, ?_, ?_⟩ <;>
    · simp only [genLocalFreightJob, rngC10, Rng.val, Rng.step, Rng.uuid,
        Rng.ustep, jsFloor, jsFloorNat, List.headD, List.tail]
      push_cast
      norm_num [show (4 : ℤ).toNat = 4 from rfl]

/-- CLAIM C10, amended: a generated tier-1 local freight job's payout and XP
reward are floors of the raw, un-floored distance `d` times the rate
constants (`payout = ⌊d · carCount · 25⌋`, `xpReward = ⌊d · 5⌋`), while the
`distance` field stores `⌊d⌋`.  For a job with distance field 10
(`d ∈ [10, 11)`) and `carCount = 8` the payout therefore lies in
`[2000, 2200)` and the XP reward in `[50, 55)`; the spec's exact values
`payout = 2000` and `xpReward = 50` are attained at `d = 10` (distance draw
`5/11`). -/
theorem claim_C10_amended :
    ∀ (city : String) (i : ℕ) (now : ℚ) (v0 q1 q2 : ℚ) (rest : List ℚ)
      (ids : List String) (d : ℚ) (j : Job),
      j = (genLocalFreightJob city i now ⟨v0 :: q1 :: q2 :: rest, ids⟩).1 →
      d = 5 + q1 * 11 → 10 ≤ d → d < 11 → jsFloorNat (q2 * 8) = 4 →
      j.distance = 10
      ∧ j.carCount = 8
      ∧ j.payout = Int.floor (d * 8 * 25)
      ∧ 2000 ≤ j.payout
      ∧ j.payout < 2200
      ∧ j.xpReward = Int.floor (d * 5)
      ∧ 50 ≤ j.xpReward
      ∧ j.xpReward < 55
      ∧ (d = 10 → j.payout = 2000 ∧ j.xpReward = 50) := by
  intro city i now v0 q1 q2 rest ids d j hj hd h10 h11 hq2
  simp only [jsFloorNat] at hq2
  subst hj
  subst hd
  have hdist : (genLocalFreightJob city i now ⟨v0 :: q1 :: q2 :: rest, ids⟩).1.distance
      = Int.floor (5 + q1 * 11) := rfl
  have hcar : (genLocalFreightJob city i now ⟨v0 :: q1 :: q2 :: rest, ids⟩).1.carCount
      = 4 + (Int.floor (q2 * 8)).toNat := rfl
  have hpay : (genLocalFreightJob city i now ⟨v0 :: q1 :: q2 :: rest, ids⟩).1.payout
      = Int.floor ((5 + q1 * 11) * ((4 + (Int.floor (q2 * 8)).toNat : ℕ) : ℚ) * 25) := rfl
  have hxp : (genLocalFreightJob city i now ⟨v0 :: q1 :: q2 :: rest, ids⟩).1.xpReward
      = Int.floor ((5 + q1 * 11) * 5) := rfl
  have hc8 : ((4 + (Int.floor (q2 * 8)).toNat : ℕ) : ℚ) = 8 := by
    rw [hq2]
    norm_num
  have hpay8 : (genLocalFreightJob city i now ⟨v0 :: q1 :: q2 :: rest, ids⟩).1.payout
      = Int.floor ((5 + q1 * 11) * 8 * 25) := by
    rw [hpay, hc8]
  refine ⟨?_, ?_, ?_, ?_, ?_, ?_, ?_, ?_, ?_⟩
  · rw [hdist, Int.floor_eq_iff]
    constructor <;> push_cast <;> linarith
  · rw [hcar, hq2]
  · rw [hpay8]
  · rw [hpay8]
    refine Int.le_floor.mpr ?_
    push_cast
    nlinarith
  · rw [hpay8]
    refine Int.floor_lt.mpr ?_
    push_cast
    nlinarith
  · rw [hxp]
  · rw [hxp]
    refine Int.le_floor.mpr ?_
    push_cast
    nlinarith
  · rw [hxp]
    refine Int.floor_lt.mpr ?_
    push_cast
    nlinarith
  · intro hde
    rw [hpay8, hxp, hde]
    norm_num

/-- Witness for the amended C10 at the draw giving the raw distance exactly
10: the job's payout is 2000 and its XP reward 50. -/
theorem claim_C10_amended_witness :
    (genLocalFreightJob "Atlanta, GA" 0 0 ⟨[0, 5 / 11, 1 / 2], ["u1"]⟩).1.payout = 2000
    ∧ (genLocalFreightJob "Atlanta, GA" 0 0 ⟨[0, 5 / 11, 1 / 2], ["u1"]⟩).1.xpReward = 50 :=
  (claim_C10_amended "Atlanta, GA" 0 0 0 (5 / 11) (1 / 2) [] ["u1"] 10 _ rfl
      (by norm_num) (by norm_num) (by norm_num)
      (by norm_num [jsFloorNat, show (4 : ℤ).toNat = 4 from rfl])).2.2.2.2.2.2.2.2 rfl

end RailOps
